import Mathlib

/-!
# Verification of the WebSocket connection/fan-out core

Shallow embedding of `backend/app/websocket/manager.py` (class
`ConnectionManager`) and `backend/app/websocket/handler.py` (class
`WebSocketHandler`).

Modelling conventions:
* `UUID` values (user ids, channel ids) and WebSocket handles are `Nat`.
* A Python `dict` is a function `Nat → Option v`; `d.get(k)` is application,
  `d[k] = v` is pointwise `update`, `del d[k]` is `update` to `none`.
* A Python `set` is a duplicate-free `List Nat`; `set.add` appends when the
  element is absent, `set.discard` filters every occurrence out.  Iteration
  order over a Python set is unspecified; none of the proved properties
  depend on the order of the modelled list.
* A Python list (the per-user connection list) is a `List Nat`;
  `list.append` is `++ [x]`, `list.remove` is `List.erase` (first
  occurrence) and raises `ValueError` when the element is absent, which the
  embedding surfaces as `Except.error`.
* Coroutine I/O (accepting the socket, awaiting sends) carries no registry
  state and is dropped; a send attempt is recorded as data instead.
-/

namespace ChatWS

abbrev UserId := Nat
abbrev ChannelId := Nat
abbrev Conn := Nat

/-- Pointwise update of a Python-dict model (`d[k] = v` or `del d[k]`). -/
def update (f : Nat → Option α) (k : Nat) (v : Option α) : Nat → Option α :=
  fun x => if x = k then v else f x

/-- Python `set.add`: no-op when the element is already present. -/
def pySetAdd (u : Nat) (l : List Nat) : List Nat :=
  if u ∈ l then l else l ++ [u]

/-- Python `set.discard`: removes the element, no error when absent. -/
def pySetDiscard (u : Nat) (l : List Nat) : List Nat :=
  l.filter (fun v => v ≠ u)

/-- State of `ConnectionManager` (manager.py, `__init__`):
`user_connections : user_id -> List[WebSocket]`,
`channel_subscriptions : channel_id -> Set[user_id]`,
`connection_users : websocket -> user_id`. -/
structure ConnectionManager where
  user_connections : UserId → Option (List Conn)
  channel_subscriptions : ChannelId → Option (List UserId)
  connection_users : Conn → Option UserId

/-- A freshly constructed `ConnectionManager()`: all three dicts empty. -/
def emptyManager : ConnectionManager :=
  { user_connections := fun _ => none
    channel_subscriptions := fun _ => none
    connection_users := fun _ => none }

/-- `ConnectionManager.connect` (manager.py:23-33): `websocket.accept()` is
I/O-only; then `user_connections.setdefault(user_id, []).append(websocket)`
and `connection_users[websocket] = user_id`. -/
def connect (s : ConnectionManager) (websocket : Conn) (user_id : UserId) :
    ConnectionManager :=
  { s with
    user_connections := update s.user_connections user_id
      (some (((s.user_connections user_id).getD []) ++ [websocket]))
    connection_users := update s.connection_users websocket (some user_id) }

/-- `ConnectionManager.disconnect` (manager.py:35-49).
`connection_users.get(websocket)` missing (the guard `if user_id:` is always
true for a genuine UUID) means a no-op.  Otherwise: `user_connections
[user_id].remove(websocket)` (first occurrence; `ValueError` when absent,
surfaced as `Except.error`), deleting the user's entry when the list
empties; then `users.discard(user_id)` for every channel's subscriber set;
then `del connection_users[websocket]`. -/
def disconnect (s : ConnectionManager) (websocket : Conn) :
    Except String ConnectionManager :=
  match s.connection_users websocket with
  | none => .ok s
  | some user_id =>
    match s.user_connections user_id with
    | some conns =>
      if websocket ∈ conns then
        let conns' := conns.erase websocket
        .ok { user_connections :=
                if conns' = [] then update s.user_connections user_id none
                else update s.user_connections user_id (some conns')
              channel_subscriptions :=
                fun c => (s.channel_subscriptions c).map (pySetDiscard user_id)
              connection_users := update s.connection_users websocket none }
      else .error "ValueError: list.remove(x): x not in list"
    | none =>
      .ok { s with
            channel_subscriptions :=
              fun c => (s.channel_subscriptions c).map (pySetDiscard user_id)
            connection_users := update s.connection_users websocket none }

/-- `ConnectionManager.subscribe_to_channel` (manager.py:51-57):
`channel_subscriptions.setdefault(channel_id, set()).add(user_id)`. -/
def subscribe_to_channel (s : ConnectionManager) (user_id : UserId)
    (channel_id : ChannelId) : ConnectionManager :=
  { s with
    channel_subscriptions := update s.channel_subscriptions channel_id
      (some (pySetAdd user_id ((s.channel_subscriptions channel_id).getD []))) }

/-- `ConnectionManager.unsubscribe_from_channel` (manager.py:59-63):
discard only when the channel key exists. -/
def unsubscribe_from_channel (s : ConnectionManager) (user_id : UserId)
    (channel_id : ChannelId) : ConnectionManager :=
  match s.channel_subscriptions channel_id with
  | none => s
  | some users =>
    { s with
      channel_subscriptions := update s.channel_subscriptions channel_id
        (some (pySetDiscard user_id users)) }

/-- The registry read `connectionsFor(userId)` of the spec: the user's entry
in `user_connections`, empty when absent. -/
def connectionsFor (s : ConnectionManager) (user_id : UserId) : List Conn :=
  (s.user_connections user_id).getD []

/-- The registry read `subscribersOf(channelId)` of the spec: the channel's
entry in `channel_subscriptions`, empty when absent. -/
def subscribersOf (s : ConnectionManager) (channel_id : ChannelId) :
    List UserId :=
  (s.channel_subscriptions channel_id).getD []

/-- `ConnectionManager.get_user_connection_count` (manager.py:117-119). -/
def get_user_connection_count (s : ConnectionManager) (user_id : UserId) :
    Nat :=
  ((s.user_connections user_id).getD []).length

/-- `ConnectionManager.get_channel_user_count` (manager.py:113-115). -/
def get_channel_user_count (s : ConnectionManager) (channel_id : ChannelId) :
    Nat :=
  ((s.channel_subscriptions channel_id).getD []).length

/-- `ConnectionManager._send_safe` (manager.py:98-107): the push attempt on
one connection.  `push` is the behaviour of `websocket.send_text` (which may
raise); the `try/except` swallows every exception, so the attempt always
returns, reporting only whether delivery succeeded. -/
def send_safe (push : Conn → Except String Unit) (websocket : Conn) : Bool :=
  match push websocket with
  | .ok _ => true
  | .error _ => false

/-- The connections resolved by `ConnectionManager.broadcast_to_channel`
(manager.py:74-96): for each subscriber of the channel that is present in
`user_connections`, all of that user's connections, in iteration order. -/
def broadcastTargets (s : ConnectionManager) (channel_id : ChannelId) :
    List Conn :=
  match s.channel_subscriptions channel_id with
  | none => []
  | some users => users.flatMap (fun u => (s.user_connections u).getD [])

/-- `ConnectionManager.broadcast_to_channel` (manager.py:74-96): one
`_send_safe` task per resolved connection, gathered with
`return_exceptions=True`; the result records each attempt and whether its
push succeeded.  The registry state is not modified. -/
def broadcast_to_channel (s : ConnectionManager) (channel_id : ChannelId)
    (push : Conn → Except String Unit) : List (Conn × Bool) :=
  (broadcastTargets s channel_id).map (fun w => (w, send_safe push w))

/-! ## Handler embedding (`handler.py`) -/

/-- Kinds of outbound events produced by the handler. -/
inductive EventKind
  | user_joined
  | user_left
  | new_message
  | typing
  | errorEvent
deriving DecidableEq

/-- One outbound write recorded by the handler.
`direct` is `WebSocketHandler.send_error` (handler.py:209-217): a write made
only to the originating socket (its own `try/except` never raises).
`fanout` is one push attempt produced by
`ConnectionManager.broadcast_to_channel`. -/
inductive OutSend
  | direct (websocket : Conn) (ev : EventKind)
  | fanout (websocket : Conn) (ev : EventKind)
deriving DecidableEq

/-- A successfully `json.loads`-parsed client frame, as consumed by
`WebSocketHandler.handle_message`.  `type` is `message.get("type")`.
`channel_id` models `UUID(data.get("channel_id"))`: `none` when the field is
missing or malformed, in which case the `UUID(...)` call raises inside the
command handler.  `is_typing` is `data.get("is_typing", False)` and `status`
is `data.get("status", "online")`. -/
structure ClientMessage where
  type : Option String
  channel_id : Option ChannelId
  content : Option String
  reply_to : Option Nat
  is_typing : Bool
  status : String
deriving DecidableEq

/-- Behaviour of the external collaborators used while handling one command:
`persist` is the outcome of `MessageRepository.create` (`none` = the awaited
create raised, i.e. persistence failure; `some id` = the stored message id);
`sender_exists` tells whether `UserRepository.get(user_id)` returns a record
(when it returns `None`, the later `user.username` access raises). -/
structure Env where
  persist : Option Nat
  sender_exists : Bool

/-- `WebSocketHandler.handle_join_channel` (handler.py:96-121): parse the
channel id (raises on a malformed/missing id), subscribe the user, then
broadcast `user_joined` to the channel through the dispatcher. -/
def handle_join_channel (s : ConnectionManager) (user_id : UserId)
    (data : ClientMessage) : Except String (List OutSend × ConnectionManager) :=
  match data.channel_id with
  | none => .error "invalid channel_id"
  | some channel_id =>
    let s' := subscribe_to_channel s user_id channel_id
    .ok ((broadcastTargets s' channel_id).map
          (fun w => OutSend.fanout w EventKind.user_joined), s')

/-- `WebSocketHandler.handle_leave_channel` (handler.py:123-137): parse the
channel id, unsubscribe the user, then broadcast `user_left` (the broadcast
happens after the unsubscribe). -/
def handle_leave_channel (s : ConnectionManager) (user_id : UserId)
    (data : ClientMessage) : Except String (List OutSend × ConnectionManager) :=
  match data.channel_id with
  | none => .error "invalid channel_id"
  | some channel_id =>
    let s' := unsubscribe_from_channel s user_id channel_id
    .ok ((broadcastTargets s' channel_id).map
          (fun w => OutSend.fanout w EventKind.user_left), s')

/-- `WebSocketHandler.handle_send_message` (handler.py:139-185): parse the
channel id, persist the message (a failed create raises), look up the sender
(a missing record makes `user.username` raise), then broadcast
`new_message`.  No registry mutation happens on this path. -/
def handle_send_message (s : ConnectionManager) (user_id : UserId)
    (data : ClientMessage) (env : Env) :
    Except String (List OutSend × ConnectionManager) :=
  match data.channel_id with
  | none => .error "invalid channel_id"
  | some channel_id =>
    match env.persist with
    | none => .error "persistence failure"
    | some _ =>
      if env.sender_exists then
        .ok ((broadcastTargets s channel_id).map
              (fun w => OutSend.fanout w EventKind.new_message), s)
      else .error "AttributeError: NoneType has no attribute username"

/-- `WebSocketHandler.handle_typing` (handler.py:187-201): parse the channel
id, then broadcast `typing`. -/
def handle_typing (s : ConnectionManager) (user_id : UserId)
    (data : ClientMessage) : Except String (List OutSend × ConnectionManager) :=
  match data.channel_id with
  | none => .error "invalid channel_id"
  | some channel_id =>
    .ok ((broadcastTargets s channel_id).map
          (fun w => OutSend.fanout w EventKind.typing), s)

/-- `WebSocketHandler.handle_update_presence` (handler.py:203-207): reads
`data.get("status", "online")` and only logs; no sends, no registry change. -/
def handle_update_presence (s : ConnectionManager) (user_id : UserId)
    (data : ClientMessage) : Except String (List OutSend × ConnectionManager) :=
  .ok ([], s)

/-- `WebSocketHandler.handle_message` (handler.py:53-94): the `if/elif`
dispatch on `message.get("type")`; an unknown (or missing) type gets a
sender-only error; any exception escaping a command handler is caught and
answered with `send_error` to the originating socket, leaving the registry
state as the handler left it (every raising path raises before mutating). -/
def handle_message (s : ConnectionManager) (websocket : Conn)
    (user_id : UserId) (message : ClientMessage) (env : Env) :
    List OutSend × ConnectionManager :=
  let r : Except String (List OutSend × ConnectionManager) :=
    if message.type = some "join_channel" then
      handle_join_channel s user_id message
    else if message.type = some "leave_channel" then
      handle_leave_channel s user_id message
    else if message.type = some "send_message" then
      handle_send_message s user_id message env
    else if message.type = some "typing" then
      handle_typing s user_id message
    else if message.type = some "update_presence" then
      handle_update_presence s user_id message
    else
      .ok ([OutSend.direct websocket EventKind.errorEvent], s)
  match r with
  | .ok out => out
  | .error _ => ([OutSend.direct websocket EventKind.errorEvent], s)

/-- One frame received by the session loop in
`WebSocketHandler.handle_connection`: `invalid` is a frame on which
`json.loads(data)` raises; `valid m` is a parsed message. -/
inductive RawFrame
  | invalid
  | valid (message : ClientMessage)

/-- The `while True` receive loop of `WebSocketHandler.handle_connection`
(handler.py:53-62) for an accepted connection, run over the finite sequence
of frames the client sends before closing.  An exhausted list is a client
close (`receive_text` raises `WebSocketDisconnect`, caught, loop ends).  A
frame on which `json.loads` raises escapes the loop to the outer
`except Exception` (handler.py:64-65): the loop ends, no error event is
sent and no later frame is processed. -/
def sessionLoop (s : ConnectionManager) (websocket : Conn) (user_id : UserId)
    (env : Env) : List RawFrame → List OutSend × ConnectionManager
  | [] => ([], s)
  | RawFrame.invalid :: _ => ([], s)
  | RawFrame.valid m :: rest =>
    let out := handle_message s websocket user_id m env
    let out2 := sessionLoop out.2 websocket user_id env rest
    (out.1 ++ out2.1, out2.2)

/-- Behaviour of the authentication collaborators used by
`WebSocketHandler.handle_connection`: `verify_token` is
`app.core.security.verify_token` (`None` on a bad credential), `parse_uuid`
is the `UUID(user_id_str)` constructor (`none` = raises), `get_user` is
`UserRepository.get` combined with `is_active()`: `none` = no such user,
`some b` = a user whose `is_active()` returns `b`. -/
structure AuthEnv where
  verify_token : String → Option String
  parse_uuid : String → Option UserId
  get_user : UserId → Option Bool

/-- Outcome of `WebSocketHandler.handle_connection`:
`rejected code reason` is a `websocket.close(code=..., reason=...)` issued
before the connection was ever registered; `completed` means the handshake
succeeded and the session ran to its end. -/
inductive ConnResult
  | rejected (code : Nat) (reason : String)
  | completed
deriving DecidableEq

/-- `WebSocketHandler.handle_connection` (handler.py:26-71).  A missing
token, failed verification, unparseable user id, unknown user or inactive
user each close the socket with `WS_1008_POLICY_VIOLATION` before
`websocket_manager.connect` is called.  Otherwise the connection is
registered, the receive loop runs over the client's frames, and the
`finally` block runs `websocket_manager.disconnect(websocket)` exactly once
(the unreachable `ValueError` branch of `disconnect` is modelled as leaving
the pre-cleanup state). -/
def handle_connection (s : ConnectionManager) (websocket : Conn)
    (token : Option String) (auth : AuthEnv) (env : Env)
    (frames : List RawFrame) : ConnResult × List OutSend × ConnectionManager :=
  match token with
  | none => (ConnResult.rejected 1008 "No authentication token provided", [], s)
  | some t =>
    match auth.verify_token t with
    | none => (ConnResult.rejected 1008 "Invalid token", [], s)
    | some user_id_str =>
      match auth.parse_uuid user_id_str with
      | none => (ConnResult.rejected 1008 "Authentication failed", [], s)
      | some user_id =>
        match auth.get_user user_id with
        | none => (ConnResult.rejected 1008 "Invalid user", [], s)
        | some active =>
          if active then
            let s1 := connect s websocket user_id
            let out := sessionLoop s1 websocket user_id env frames
            match disconnect out.2 websocket with
            | .ok s3 => (ConnResult.completed, out.1, s3)
            | .error _ => (ConnResult.completed, out.1, out.2)
          else (ConnResult.rejected 1008 "Invalid user", [], s)

/-! ## Registry histories (for the register/unregister history property) -/

/-- One registry operation of the spec: `register` is
`ConnectionManager.connect` (minus the socket accept), `unregister` is
`ConnectionManager.disconnect`. -/
inductive RegistryOp
  | reg (c : Conn) (u : UserId)
  | unreg (c : Conn)
deriving DecidableEq

/-- Apply one registry operation. -/
def applyOp (s : ConnectionManager) : RegistryOp → Except String ConnectionManager
  | .reg c u => .ok (connect s c u)
  | .unreg c => disconnect s c

/-- Run a sequence of registry operations from a given state, stopping at
the first raised exception. -/
def runOps (s : ConnectionManager) : List RegistryOp → Except String ConnectionManager
  | [] => .ok s
  | op :: rest =>
    match applyOp s op with
    | .ok s' => runOps s' rest
    | .error e => .error e

/-- The connections registered by a history, in order, with multiplicity. -/
def regConns : List RegistryOp → List Conn
  | [] => []
  | .reg c _ :: rest => c :: regConns rest
  | .unreg _ :: rest => regConns rest

/-- A well-formed history: each connection is registered at most once. -/
def wfOps (ops : List RegistryOp) : Prop := (regConns ops).Nodup

instance : DecidablePred wfOps := fun ops => by
  unfold wfOps; infer_instance

/-- Abstract effect of one operation on the connection-owner map. -/
def opStep (f : Conn → Option UserId) : RegistryOp → (Conn → Option UserId)
  | .reg c u => update f c (some u)
  | .unreg c => update f c none

/-- Abstract connection-owner map after a history. -/
def ownerAfter (f : Conn → Option UserId) (ops : List RegistryOp) :
    Conn → Option UserId :=
  ops.foldl opStep f

/-- The declarative reading of the claim: connection `c` was registered
under `u` at some point of the history and never unregistered afterwards. -/
def RegisteredLive (ops : List RegistryOp) (c : Conn) (u : UserId) : Prop :=
  ∃ pre suf, ops = pre ++ RegistryOp.reg c u :: suf ∧ RegistryOp.unreg c ∉ suf

/-- Consistency of the two connection maps, maintained by well-formed
histories: `connection_users` and `user_connections` mirror each other and
per-user connection lists are duplicate-free. -/
def Inv (s : ConnectionManager) : Prop :=
  (∀ w u, s.connection_users w = some u → w ∈ (s.user_connections u).getD []) ∧
  (∀ u w, w ∈ (s.user_connections u).getD [] → s.connection_users w = some u) ∧
  (∀ u, ((s.user_connections u).getD []).Nodup)

/-- Total live-connection count of a channel's subscribers, the `N` of the
fan-out contract: each subscriber contributes all of its registered
connections. -/
def liveSubscriberConns (s : ConnectionManager) (channel_id : ChannelId) : Nat :=
  ((subscribersOf s channel_id).map (get_user_connection_count s)).sum

/-- A command frame with the given type and channel id (content and the
remaining fields as a typical client would send them). -/
def mkCmd (ty : String) (c : ChannelId) : ClientMessage :=
  { type := some ty
    channel_id := some c
    content := some "hello"
    reply_to := none
    is_typing := true
    status := "online" }

/-- The handshake-failure condition of `handle_connection`: the credential
is absent, fails `verify_token`, yields an unparseable user id, or resolves
to a missing/inactive user.  Every disjunct closes the socket with the
policy-violation code 1008 before `connect` is reached. -/
def authRejected (token : Option String) (auth : AuthEnv) : Prop :=
  token = none ∨ ∃ t, token = some t ∧
    (auth.verify_token t = none ∨ ∃ str, auth.verify_token t = some str ∧
      (auth.parse_uuid str = none ∨ ∃ uid, auth.parse_uuid str = some uid ∧
        (auth.get_user uid = none ∨ auth.get_user uid = some false)))

/-- The non-fatal failures of one parsed command in `handle_message`: a
malformed or missing channel id on a command that needs one, a persistence
failure or missing sender record on `send_message`, or an unrecognized (or
missing) command type.  (An unparseable frame is not included: it raises in
the receive loop, outside `handle_message`, and terminates the session.) -/
def nonfatalFailure (m : ClientMessage) (env : Env) : Bool :=
  if m.type = some "join_channel" then m.channel_id.isNone
  else if m.type = some "leave_channel" then m.channel_id.isNone
  else if m.type = some "send_message" then
    (m.channel_id.isNone || env.persist.isNone || !env.sender_exists)
  else if m.type = some "typing" then m.channel_id.isNone
  else if m.type = some "update_presence" then false
  else true

/-! ## Example states and collaborator behaviours used by the witnesses -/

/-- Collaborators that always succeed: persistence stores the message as
id 42 and the sender's user record exists. -/
def envOk : Env := { persist := some 42, sender_exists := true }

/-- Collaborators whose message persistence fails. -/
def envPersistFail : Env := { persist := none, sender_exists := true }

/-- An authentication environment whose token verification always fails. -/
def authReject : AuthEnv :=
  { verify_token := fun _ => none
    parse_uuid := fun _ => none
    get_user := fun _ => none }

/-- Example registry for the C1 witness: users 1 (connections 10, 11) and
2 (connection 12) subscribe channel 7. -/
def mgrC1 : ConnectionManager :=
  { user_connections := fun u =>
      if u = 1 then some [10, 11] else if u = 2 then some [12] else none
    channel_subscriptions := fun c => if c = 7 then some [1, 2] else none
    connection_users := fun w =>
      if w = 10 ∨ w = 11 then some 1 else if w = 12 then some 2 else none }

/-- A push behaviour where every send succeeds. -/
def pushOkC1 : Conn → Except String Unit := fun _ => .ok ()

/-- A push behaviour where connection 11's socket is closed. -/
def pushFailC1 : Conn → Except String Unit :=
  fun w => if w = 11 then .error "closed socket" else .ok ()

/-- Example registry: user 1's single connection 10, subscribed to
channel 7. -/
def mgrC2 : ConnectionManager :=
  { user_connections := fun u => if u = 1 then some [10] else none
    channel_subscriptions := fun c => if c = 7 then some [1] else none
    connection_users := fun w => if w = 10 then some 1 else none }

/-- Example registry for the C9 witness: channel 7's subscribers are user 1
(connection 10) and user 2 (a stale entry: no connections); channel 8 has an
empty subscriber set; channel 9 has none. -/
def mgrC9 : ConnectionManager :=
  { user_connections := fun u => if u = 1 then some [10] else none
    channel_subscriptions := fun c =>
      if c = 7 then some [1, 2] else if c = 8 then some [] else none
    connection_users := fun w => if w = 10 then some 1 else none }

/-- The registry after `register(c, u)` twice from empty followed by
`subscribe(ch, u)` (the C10 scenario). -/
def dblRegState (c u ch : Nat) : ConnectionManager :=
  subscribe_to_channel (connect (connect emptyManager c u) c u) u ch

/-- The registry `unregister(c)` leaves behind in the C10 scenario: one of
the two duplicate entries for `c` survives. -/
def dblRegAfterUnreg (c u ch : Nat) : ConnectionManager :=
  { user_connections := update (dblRegState c u ch).user_connections u (some [c])
    channel_subscriptions := fun x =>
      ((dblRegState c u ch).channel_subscriptions x).map (pySetDiscard u)
    connection_users := update (dblRegState c u ch).connection_users c none }

/-! ## Helper lemmas -/

theorem managerExt (a b : ConnectionManager)
    (h1 : a.user_connections = b.user_connections)
    (h2 : a.channel_subscriptions = b.channel_subscriptions)
    (h3 : a.connection_users = b.connection_users) : a = b := by
  cases a; cases b; simp_all

theorem update_apply (f : Nat → Option α) (k : Nat) (v : Option α) (x : Nat) :
    update f k v x = if x = k then v else f x := rfl

theorem update_self (f : Nat → Option α) (k : Nat) (v : Option α) :
    update f k v k = v := by simp [update]

theorem mem_pySetDiscard (v u : Nat) (l : List Nat) :
    v ∈ pySetDiscard u l ↔ v ∈ l ∧ v ≠ u := by
  simp [pySetDiscard]

theorem not_mem_pySetDiscard_self (u : Nat) (l : List Nat) :
    u ∉ pySetDiscard u l := by
  simp [mem_pySetDiscard]

theorem pySetDiscard_idem (u : Nat) (l : List Nat) :
    pySetDiscard u (pySetDiscard u l) = pySetDiscard u l := by
  unfold pySetDiscard
  rw [List.filter_filter]
  simp

theorem mem_pySetAdd_self (u : Nat) (l : List Nat) : u ∈ pySetAdd u l := by
  by_cases h : u ∈ l <;> simp [pySetAdd, h]

theorem flatMap_pySetDiscard_of_nil (users : List Nat) (f : Nat → List Nat)
    (u : Nat) (hf : f u = []) :
    (pySetDiscard u users).flatMap f = users.flatMap f := by
  unfold pySetDiscard
  induction users with
  | nil => rfl
  | cons a t ih =>
    rw [List.filter_cons]
    by_cases ha : a = u
    · rw [if_neg (by simp [ha])]
      rw [ih, List.flatMap_cons, ha, hf, List.nil_append]
    · rw [if_pos (by simp [ha])]
      rw [List.flatMap_cons, List.flatMap_cons, ih]

theorem length_broadcastTargets (s : ConnectionManager) (c : ChannelId) :
    (broadcastTargets s c).length = liveSubscriberConns s c := by
  unfold broadcastTargets liveSubscriberConns subscribersOf
    get_user_connection_count
  cases h : s.channel_subscriptions c with
  | none => simp [h]
  | some users =>
    simp only [h, Option.getD_some, List.length_flatMap]
    rfl

theorem unsubscribe_eq_of_some (s : ConnectionManager) (u : UserId)
    (c : ChannelId) (l : List UserId)
    (hc : s.channel_subscriptions c = some l) :
    unsubscribe_from_channel s u c =
      { s with channel_subscriptions :=
          update s.channel_subscriptions c (some (pySetDiscard u l)) } := by
  unfold unsubscribe_from_channel
  rw [hc]

theorem filter_map_send_congr (push push' : Conn → Except String Unit)
    (w₀ : Conn) (h : ∀ w, w ≠ w₀ → push w = push' w) (l : List Conn) :
    ((l.map (fun w => (w, send_safe push w))).filter (fun p => p.1 != w₀)) =
      ((l.map (fun w => (w, send_safe push' w))).filter (fun p => p.1 != w₀)) := by
  induction l with
  | nil => rfl
  | cons a t ih =>
    simp only [List.map_cons, List.filter_cons]
    by_cases ha : a = w₀
    · subst ha; simp [ih]
    · have : send_safe push a = send_safe push' a := by
        unfold send_safe; rw [h a ha]
      simp [ha, this, ih]

/-! ## Claims -/

/-- C1: `broadcast(C, event)` makes exactly one push attempt per connection
resolved from C's subscribers (N in total); a failing push is caught inside
`_send_safe` so every other resolved connection is still attempted
unchanged, and `broadcast_to_channel` is a total function — it returns
normally to its caller for every push behaviour, raising nothing. -/
theorem broadcast_exact_attempts (s : ConnectionManager) (c : ChannelId)
    (push push' : Conn → Except String Unit) (w₀ : Conn)
    (hagree : ∀ w, w ≠ w₀ → push w = push' w) :
    ((broadcast_to_channel s c push).map Prod.fst = broadcastTargets s c) ∧
    ((broadcast_to_channel s c push).length = liveSubscriberConns s c) ∧
    ((broadcast_to_channel s c push).filter (fun p => p.1 != w₀) =
      (broadcast_to_channel s c push').filter (fun p => p.1 != w₀)) := by
  refine ⟨?_, ?_, ?_⟩
  · unfold broadcast_to_channel
    rw [List.map_map]
    rw [show (Prod.fst ∘ fun w : Conn => (w, send_safe push w)) = id from rfl]
    exact List.map_id _
  · unfold broadcast_to_channel
    rw [List.length_map]
    exact length_broadcastTargets s c
  · unfold broadcast_to_channel
    exact filter_map_send_congr push push' w₀ hagree (broadcastTargets s c)

theorem broadcast_exact_attempts_witness :
    (∀ w, w ≠ 11 → pushOkC1 w = pushFailC1 w) ∧
    (((broadcast_to_channel mgrC1 7 pushOkC1).map Prod.fst =
        broadcastTargets mgrC1 7) ∧
      ((broadcast_to_channel mgrC1 7 pushOkC1).length =
        liveSubscriberConns mgrC1 7) ∧
      ((broadcast_to_channel mgrC1 7 pushOkC1).filter (fun p => p.1 != 11) =
        (broadcast_to_channel mgrC1 7 pushFailC1).filter (fun p => p.1 != 11))) :=
  ⟨fun w hw => by simp [pushOkC1, pushFailC1, hw],
    broadcast_exact_attempts mgrC1 7 pushOkC1 pushFailC1 11
      (fun w hw => by simp [pushOkC1, pushFailC1, hw])⟩

/-- C2: when `unregister` (= `disconnect`) removes user `u`'s last remaining
registered connection, the call succeeds, `u`'s connection entry is gone,
and `u` is absent from `subscribersOf(C)` for every channel `C`. -/
theorem disconnect_last_purges_subscriptions (s : ConnectionManager)
    (w : Conn) (u : UserId)
    (hreg : s.connection_users w = some u)
    (hlast : s.user_connections u = some [w]) :
    ∃ s', disconnect s w = .ok s' ∧ connectionsFor s' u = [] ∧
      ∀ c : ChannelId, u ∉ subscribersOf s' c := by
  have hd : disconnect s w = .ok
      { user_connections := update s.user_connections u none
        channel_subscriptions :=
          fun c => (s.channel_subscriptions c).map (pySetDiscard u)
        connection_users := update s.connection_users w none } := by
    simp only [disconnect, hreg, hlast]
    simp [List.erase_cons_head]
  refine ⟨_, hd, ?_, ?_⟩
  · simp [connectionsFor, update]
  · intro c
    unfold subscribersOf
    cases h : s.channel_subscriptions c with
    | none => simp [h]
    | some l => simp [h, not_mem_pySetDiscard_self]

theorem disconnect_last_purges_subscriptions_witness :
    mgrC2.connection_users 10 = some 1 ∧
    mgrC2.user_connections 1 = some [10] ∧
    (∃ s', disconnect mgrC2 10 = .ok s' ∧ connectionsFor s' 1 = [] ∧
      ∀ c : ChannelId, (1 : UserId) ∉ subscribersOf s' c) :=
  ⟨rfl, rfl, disconnect_last_purges_subscriptions mgrC2 10 1 rfl rfl⟩

/-- C8: `unsubscribe(C, u)` is idempotent (two calls in a row end in the
same registry state as one), and `unregister` on a connection that is not
registered returns without error and leaves the registry unchanged. -/
theorem unsubscribe_idem_unregister_noop (s : ConnectionManager)
    (u : UserId) (c : ChannelId) (w : Conn)
    (hunreg : s.connection_users w = none) :
    unsubscribe_from_channel (unsubscribe_from_channel s u c) u c =
      unsubscribe_from_channel s u c ∧
    disconnect s w = .ok s := by
  constructor
  · cases hc : s.channel_subscriptions c with
    | none =>
      have h1 : unsubscribe_from_channel s u c = s := by
        unfold unsubscribe_from_channel
        rw [hc]
      rw [h1]
      exact h1
    | some l =>
      rw [unsubscribe_eq_of_some s u c l hc]
      rw [unsubscribe_eq_of_some _ u c (pySetDiscard u l) (by simp [update])]
      apply managerExt
      · rfl
      · funext x
        by_cases hx : x = c
        · simp [update, hx, pySetDiscard_idem]
        · simp [update, hx]
      · rfl
  · unfold disconnect
    rw [hunreg]

theorem unsubscribe_idem_unregister_noop_witness :
    mgrC2.connection_users 99 = none ∧
    (unsubscribe_from_channel (unsubscribe_from_channel mgrC2 1 7) 1 7 =
        unsubscribe_from_channel mgrC2 1 7 ∧
      disconnect mgrC2 99 = .ok mgrC2) :=
  ⟨rfl, unsubscribe_idem_unregister_noop mgrC2 1 7 99 rfl⟩

/-- C9: a broadcast to a channel with no subscription entry, or with an
empty subscriber set, performs zero push attempts (and, being a total
function, completes without error); a subscriber with no live connections
contributes no push attempt and is skipped silently — the push attempts are
exactly those of the registry with the stale entry removed, so delivery to
every other subscriber proceeds unchanged. -/
theorem broadcast_empty_and_stale (s : ConnectionManager)
    (c₀ c₁ c₂ : ChannelId) (push : Conn → Except String Unit) (u : UserId)
    (users : List UserId)
    (h0 : s.channel_subscriptions c₀ = none)
    (h1 : s.channel_subscriptions c₁ = some [])
    (h2 : s.channel_subscriptions c₂ = some users)
    (hu : u ∈ users)
    (hconn : s.user_connections u = none) :
    broadcast_to_channel s c₀ push = [] ∧
    broadcast_to_channel s c₁ push = [] ∧
    broadcast_to_channel s c₂ push =
      broadcast_to_channel (unsubscribe_from_channel s u c₂) c₂ push := by
  refine ⟨?_, ?_, ?_⟩
  · unfold broadcast_to_channel broadcastTargets
    rw [h0]
    rfl
  · unfold broadcast_to_channel broadcastTargets
    rw [h1]
    rfl
  · unfold broadcast_to_channel broadcastTargets unsubscribe_from_channel
    rw [h2]
    simp only [update_self]
    rw [flatMap_pySetDiscard_of_nil users _ u (by simp [hconn])]

theorem broadcast_empty_and_stale_witness :
    (mgrC9.channel_subscriptions 9 = none ∧
      mgrC9.channel_subscriptions 8 = some [] ∧
      mgrC9.channel_subscriptions 7 = some [1, 2] ∧
      (2 : UserId) ∈ [1, 2] ∧ mgrC9.user_connections 2 = none) ∧
    (broadcast_to_channel mgrC9 9 pushOkC1 = [] ∧
      broadcast_to_channel mgrC9 8 pushOkC1 = [] ∧
      broadcast_to_channel mgrC9 7 pushOkC1 =
        broadcast_to_channel (unsubscribe_from_channel mgrC9 2 7) 7 pushOkC1) :=
  ⟨⟨rfl, rfl, rfl, by decide, rfl⟩,
    broadcast_empty_and_stale mgrC9 9 8 7 pushOkC1 2 [1, 2] rfl rfl rfl
      (by decide) rfl⟩

/-- C10: registering the same connection `c` twice under the same user `u`
(starting from the empty registry) stores two entries: the connection count
is 2, a single broadcast to a channel `u` subscribes makes two push attempts
to `c`, and one `unregister(c)` removes only one entry, after which
`connectionsFor(u)` still reports `c`. -/
theorem double_register_double_entry (c u ch : Nat) :
    connectionsFor (connect (connect emptyManager c u) c u) u = [c, c] ∧
    get_user_connection_count (connect (connect emptyManager c u) c u) u = 2 ∧
    (broadcastTargets (dblRegState c u ch) ch).count c = 2 ∧
    disconnect (dblRegState c u ch) c = .ok (dblRegAfterUnreg c u ch) ∧
    connectionsFor (dblRegAfterUnreg c u ch) u = [c] ∧
    get_user_connection_count (dblRegAfterUnreg c u ch) u = 1 := by
  have huc : (dblRegState c u ch).user_connections u = some [c, c] := by
    simp [dblRegState, subscribe_to_channel, connect, emptyManager, update]
  have hcu : (dblRegState c u ch).connection_users c = some u := by
    simp [dblRegState, subscribe_to_channel, connect, emptyManager, update]
  refine ⟨?_, ?_, ?_, ?_, ?_, ?_⟩
  · simp [connectionsFor, connect, emptyManager, update]
  · simp [get_user_connection_count, connect, emptyManager, update]
  · simp [broadcastTargets, dblRegState, subscribe_to_channel, connect,
      emptyManager, update, pySetAdd]
  · simp only [disconnect, hcu, huc]
    simp [dblRegAfterUnreg, List.erase_cons_head]
  · simp [connectionsFor, dblRegAfterUnreg, update]
  · simp [get_user_connection_count, dblRegAfterUnreg, update]

theorem mem_broadcastTargets (s : ConnectionManager) (w : Conn) (u : UserId)
    (ch : ChannelId) (hu : u ∈ subscribersOf s ch)
    (hw : w ∈ connectionsFor s u) : w ∈ broadcastTargets s ch := by
  unfold broadcastTargets
  unfold subscribersOf at hu
  cases h : s.channel_subscriptions ch with
  | none => rw [h] at hu; simp at hu
  | some l =>
    rw [h] at hu
    simp only [Option.getD_some] at hu
    rw [List.mem_flatMap]
    exact ⟨u, hu, hw⟩

/-- C3: `unregister` on one of user `u`'s connections removes `u` from the
subscriber set of every channel even though `u` still holds another open
registered connection `w'`, so a broadcast to channel `ch` issued
immediately afterwards resolves no push attempt to `w'` (assuming `w'` is
not also registered under some other subscribed user). -/
theorem disconnect_one_of_many_purges (s : ConnectionManager) (w w' : Conn)
    (u : UserId) (ch : ChannelId)
    (hreg : s.connection_users w = some u)
    (hw : w ∈ connectionsFor s u)
    (hw' : w' ∈ connectionsFor s u)
    (hne : w' ≠ w)
    (hsolo : ∀ v, v ≠ u → w' ∉ connectionsFor s v) :
    ∃ s', disconnect s w = .ok s' ∧
      w' ∈ connectionsFor s' u ∧
      (∀ c : ChannelId, u ∉ subscribersOf s' c) ∧
      w' ∉ broadcastTargets s' ch := by
  unfold connectionsFor at hw hw'
  cases huc : s.user_connections u with
  | none => rw [huc] at hw; simp at hw
  | some conns =>
    rw [huc] at hw hw'
    simp only [Option.getD_some] at hw hw'
    have hmem' : w' ∈ conns.erase w := (List.mem_erase_of_ne hne).mpr hw'
    have hnil : ¬(conns.erase w = []) := by
      intro hcontra; rw [hcontra] at hmem'; simp at hmem'
    have hd : disconnect s w = .ok
        { user_connections := update s.user_connections u (some (conns.erase w))
          channel_subscriptions :=
            fun c => (s.channel_subscriptions c).map (pySetDiscard u)
          connection_users := update s.connection_users w none } := by
      simp only [disconnect, hreg, huc]
      simp [hw, hnil]
    refine ⟨_, hd, ?_, ?_, ?_⟩
    · simp only [connectionsFor, update_self, Option.getD_some]
      exact hmem'
    · intro c
      unfold subscribersOf
      cases h : s.channel_subscriptions c with
      | none => simp [h]
      | some l => simp [h, not_mem_pySetDiscard_self]
    · unfold broadcastTargets
      cases h : s.channel_subscriptions ch with
      | none => simp [h]
      | some l =>
        simp only [h, Option.map_some']
        rw [List.mem_flatMap]
        rintro ⟨v, hv, hwv⟩
        rw [mem_pySetDiscard] at hv
        rw [update_apply, if_neg hv.2] at hwv
        exact hsolo v hv.2 hwv

theorem disconnect_one_of_many_purges_witness :
    (mgrC1.connection_users 10 = some 1 ∧
      (10 : Conn) ∈ connectionsFor mgrC1 1 ∧
      (11 : Conn) ∈ connectionsFor mgrC1 1 ∧ (11 : Conn) ≠ 10 ∧
      (∀ v, v ≠ 1 → (11 : Conn) ∉ connectionsFor mgrC1 v)) ∧
    (∃ s', disconnect mgrC1 10 = .ok s' ∧
      (11 : Conn) ∈ connectionsFor s' 1 ∧
      (∀ c : ChannelId, (1 : UserId) ∉ subscribersOf s' c) ∧
      (11 : Conn) ∉ broadcastTargets s' 7) := by
  have hsolo : ∀ v, v ≠ 1 → (11 : Conn) ∉ connectionsFor mgrC1 v := by
    intro v hv
    by_cases h2 : v = 2
    · subst h2; decide
    · simp [mgrC1, connectionsFor, hv, h2]
  exact ⟨⟨rfl, by decide, by decide, by decide, hsolo⟩,
    disconnect_one_of_many_purges mgrC1 10 11 1 7 rfl (by decide) (by decide)
      (by decide) hsolo⟩

/-- C5: when the handshake credential is absent or fails any verification
step (bad token, unparseable user id, unknown or inactive user),
`handle_connection` closes the socket with the policy-violation code 1008
before registration, processes no command (no outbound sends), returns the
registry unchanged, and the connection appears in `connectionsFor` of no
user. -/
theorem handshake_failure_rejects (s : ConnectionManager) (w : Conn)
    (token : Option String) (auth : AuthEnv) (env : Env)
    (frames : List RawFrame)
    (hrej : authRejected token auth)
    (hfresh : ∀ v, w ∉ connectionsFor s v) :
    ∃ reason,
      handle_connection s w token auth env frames =
        (ConnResult.rejected 1008 reason, [], s) ∧
      ∀ v, w ∉ connectionsFor (handle_connection s w token auth env frames).2.2 v := by
  have key : ∃ reason,
      handle_connection s w token auth env frames =
        (ConnResult.rejected 1008 reason, [], s) := by
    rcases hrej with htok | ⟨t, htok, hv | ⟨str, hstr, hp | ⟨uid, hup, hg | hg⟩⟩⟩
    · subst htok
      exact ⟨_, rfl⟩
    · subst htok
      refine ⟨"Invalid token", ?_⟩
      simp only [handle_connection, hv]
    · subst htok
      refine ⟨"Authentication failed", ?_⟩
      simp only [handle_connection, hstr, hp]
    · subst htok
      refine ⟨"Invalid user", ?_⟩
      simp only [handle_connection, hstr, hup, hg]
    · subst htok
      refine ⟨"Invalid user", ?_⟩
      simp only [handle_connection, hstr, hup, hg]
      rw [if_neg (by simp)]
  obtain ⟨reason, heq⟩ := key
  refine ⟨reason, heq, ?_⟩
  intro v
  rw [heq]
  exact hfresh v

theorem handshake_failure_rejects_witness :
    (authRejected (some "bad-token") authReject ∧
      (∀ v, (5 : Conn) ∉ connectionsFor emptyManager v)) ∧
    (∃ reason,
      handle_connection emptyManager 5 (some "bad-token") authReject envOk [] =
        (ConnResult.rejected 1008 reason, [], emptyManager) ∧
      ∀ v, (5 : Conn) ∉ connectionsFor
        (handle_connection emptyManager 5 (some "bad-token") authReject envOk
          []).2.2 v) := by
  have h1 : authRejected (some "bad-token") authReject :=
    Or.inr ⟨"bad-token", rfl, Or.inl rfl⟩
  have h2 : ∀ v, (5 : Conn) ∉ connectionsFor emptyManager v := by
    intro v; simp [emptyManager, connectionsFor]
  exact ⟨⟨h1, h2⟩,
    handshake_failure_rejects emptyManager 5 (some "bad-token") authReject
      envOk [] h1 h2⟩

/-- C6 counterexample: an unparseable frame does not produce a sender-only
`error` event, and the connection does not continue processing subsequent
commands.  At the concrete input below the session receives an invalid JSON
frame followed by a well-formed `join_channel` command: `json.loads` raises
out of the receive loop, so the session emits no send at all (in particular
no `error` event to the originating connection) and never processes the
second command (the registry is left untouched), contradicting the claim
for the unparseable-frame case. -/
theorem invalid_frame_terminates_session :
    sessionLoop emptyManager 5 1 envOk
      [RawFrame.invalid, RawFrame.valid (mkCmd "join_channel" 3)] =
      ([], emptyManager) := rfl

/-- C6 (amended): for every inbound command on an Active connection that
fails non-fatally inside `handle_message` — a malformed or missing channel
id, an unrecognized command kind, or a persistence failure — an `error`
event is sent to the originating connection only (no broadcast, registry
unchanged) and the session continues processing subsequent frames.  An
unparseable frame is excluded: it raises outside `handle_message`, ends the
receive loop and produces no error event. -/
theorem nonfatal_error_sender_only (s : ConnectionManager) (w : Conn)
    (u : UserId) (m : ClientMessage) (env : Env) (rest : List RawFrame)
    (h : nonfatalFailure m env = true) :
    handle_message s w u m env = ([OutSend.direct w EventKind.errorEvent], s) ∧
    sessionLoop s w u env (RawFrame.valid m :: rest) =
      (OutSend.direct w EventKind.errorEvent :: (sessionLoop s w u env rest).1,
        (sessionLoop s w u env rest).2) := by
  have h1 : handle_message s w u m env =
      ([OutSend.direct w EventKind.errorEvent], s) := by
    by_cases hj : m.type = some "join_channel"
    · rw [nonfatalFailure, if_pos hj] at h
      have hc : m.channel_id = none := Option.isNone_iff_eq_none.mp h
      simp [handle_message, hj, handle_join_channel, hc]
    · by_cases hl : m.type = some "leave_channel"
      · rw [nonfatalFailure, if_neg hj, if_pos hl] at h
        have hc : m.channel_id = none := Option.isNone_iff_eq_none.mp h
        simp [handle_message, hj, hl, handle_leave_channel, hc]
      · by_cases hs : m.type = some "send_message"
        · rw [nonfatalFailure, if_neg hj, if_neg hl, if_pos hs] at h
          rcases Bool.or_eq_true_iff.mp h with h' | hsend
          · rcases Bool.or_eq_true_iff.mp h' with hcid | hper
            · have hc : m.channel_id = none := Option.isNone_iff_eq_none.mp hcid
              simp [handle_message, hj, hl, hs, handle_send_message, hc]
            · have hp : env.persist = none := Option.isNone_iff_eq_none.mp hper
              cases hc : m.channel_id with
              | none => simp [handle_message, hj, hl, hs, handle_send_message, hc]
              | some cid =>
                simp [handle_message, hj, hl, hs, handle_send_message, hc, hp]
          · have hsx : env.sender_exists = false := by
              cases hse : env.sender_exists
              · rfl
              · rw [hse] at hsend; simp at hsend
            cases hc : m.channel_id with
            | none => simp [handle_message, hj, hl, hs, handle_send_message, hc]
            | some cid =>
              cases hp : env.persist with
              | none =>
                simp [handle_message, hj, hl, hs, handle_send_message, hc, hp]
              | some pid =>
                simp [handle_message, hj, hl, hs, handle_send_message, hc, hp,
                  hsx]
        · by_cases ht : m.type = some "typing"
          · rw [nonfatalFailure, if_neg hj, if_neg hl, if_neg hs, if_pos ht] at h
            have hc : m.channel_id = none := Option.isNone_iff_eq_none.mp h
            simp [handle_message, hj, hl, hs, ht, handle_typing, hc]
          · by_cases hu' : m.type = some "update_presence"
            · rw [nonfatalFailure, if_neg hj, if_neg hl, if_neg hs, if_neg ht,
                if_pos hu'] at h
              simp at h
            · simp [handle_message, hj, hl, hs, ht, hu']
  refine ⟨h1, ?_⟩
  simp only [sessionLoop, h1]
  rw [List.singleton_append]

theorem nonfatal_error_sender_only_witness :
    (nonfatalFailure (mkCmd "send_message" 3) envPersistFail = true) ∧
    (handle_message mgrC2 10 1 (mkCmd "send_message" 3) envPersistFail =
        ([OutSend.direct 10 EventKind.errorEvent], mgrC2) ∧
      sessionLoop mgrC2 10 1 envPersistFail
          (RawFrame.valid (mkCmd "send_message" 3) ::
            [RawFrame.valid (mkCmd "typing" 7)]) =
        (OutSend.direct 10 EventKind.errorEvent ::
            (sessionLoop mgrC2 10 1 envPersistFail
              [RawFrame.valid (mkCmd "typing" 7)]).1,
          (sessionLoop mgrC2 10 1 envPersistFail
            [RawFrame.valid (mkCmd "typing" 7)]).2)) :=
  ⟨rfl, nonfatal_error_sender_only mgrC2 10 1 (mkCmd "send_message" 3)
    envPersistFail [RawFrame.valid (mkCmd "typing" 7)] rfl⟩

/-- C7 counterexample: on `leave_channel` the sender does not receive the
`user_left` broadcast it triggered.  In `mgrC2`, user 1 (connection 10,
live) is the sole subscriber of channel 7; `handle_leave_channel`
unsubscribes before broadcasting, so the broadcast resolves zero
connections: the command produces no push attempt at all, in particular
none to the sender's own open connection 10 — contradicting the claim that
the sending connection receives every broadcast event it triggers. -/
theorem leave_broadcast_misses_sender :
    (10 : Conn) ∈ connectionsFor mgrC2 1 ∧
    (1 : UserId) ∈ subscribersOf mgrC2 7 ∧
    OutSend.fanout 10 EventKind.user_left ∉
      (handle_message mgrC2 10 1 (mkCmd "leave_channel" 7) envOk).1 := by
  refine ⟨by decide, by decide, ?_⟩
  have : (handle_message mgrC2 10 1 (mkCmd "leave_channel" 7) envOk).1 = [] :=
    rfl
  rw [this]
  simp

/-- C7 (amended): every broadcast triggered by an inbound command resolves
its targets from the registry through the fan-out dispatcher
(`broadcast_to_channel`), so the sending connection receives the event it
triggered whenever its user is a subscriber of the channel at dispatch
time: on `join_channel` (which subscribes the sender first), on
`send_message` and on `typing` the sender's connection is among the push
targets; on `leave_channel` the sender has just been unsubscribed and is
not (see the counterexample). -/
theorem command_broadcast_echoes_sender (s : ConnectionManager) (w : Conn)
    (u : UserId) (ch : ChannelId) (env : Env)
    (hconn : w ∈ connectionsFor s u)
    (hsub : u ∈ subscribersOf s ch)
    (hpersist : env.persist = some 42)
    (hsender : env.sender_exists = true) :
    OutSend.fanout w EventKind.user_joined ∈
      (handle_message s w u (mkCmd "join_channel" ch) env).1 ∧
    OutSend.fanout w EventKind.new_message ∈
      (handle_message s w u (mkCmd "send_message" ch) env).1 ∧
    OutSend.fanout w EventKind.typing ∈
      (handle_message s w u (mkCmd "typing" ch) env).1 := by
  refine ⟨?_, ?_, ?_⟩
  · have hred : (handle_message s w u (mkCmd "join_channel" ch) env).1 =
        (broadcastTargets (subscribe_to_channel s u ch) ch).map
          (fun w' => OutSend.fanout w' EventKind.user_joined) := by
      simp [handle_message, mkCmd, handle_join_channel]
    rw [hred]
    rw [List.mem_map]
    refine ⟨w, ?_, rfl⟩
    apply mem_broadcastTargets _ w u ch
    · unfold subscribersOf subscribe_to_channel
      simp only [update_self, Option.getD_some]
      exact mem_pySetAdd_self u _
    · exact hconn
  · have hred : (handle_message s w u (mkCmd "send_message" ch) env).1 =
        (broadcastTargets s ch).map
          (fun w' => OutSend.fanout w' EventKind.new_message) := by
      simp [handle_message, mkCmd, handle_send_message, hpersist, hsender]
    rw [hred]
    rw [List.mem_map]
    exact ⟨w, mem_broadcastTargets s w u ch hsub hconn, rfl⟩
  · have hred : (handle_message s w u (mkCmd "typing" ch) env).1 =
        (broadcastTargets s ch).map
          (fun w' => OutSend.fanout w' EventKind.typing) := by
      simp [handle_message, mkCmd, handle_typing]
    rw [hred]
    rw [List.mem_map]
    exact ⟨w, mem_broadcastTargets s w u ch hsub hconn, rfl⟩

theorem command_broadcast_echoes_sender_witness :
    ((10 : Conn) ∈ connectionsFor mgrC2 1 ∧
      (1 : UserId) ∈ subscribersOf mgrC2 7 ∧
      envOk.persist = some 42 ∧ envOk.sender_exists = true) ∧
    (OutSend.fanout 10 EventKind.user_joined ∈
        (handle_message mgrC2 10 1 (mkCmd "join_channel" 7) envOk).1 ∧
      OutSend.fanout 10 EventKind.new_message ∈
        (handle_message mgrC2 10 1 (mkCmd "send_message" 7) envOk).1 ∧
      OutSend.fanout 10 EventKind.typing ∈
        (handle_message mgrC2 10 1 (mkCmd "typing" 7) envOk).1) :=
  ⟨⟨by decide, by decide, rfl, rfl⟩,
    command_broadcast_echoes_sender mgrC2 10 1 7 envOk (by decide) (by decide)
      rfl rfl⟩

/-! ## Registry history lemmas (for C4) -/

theorem regConns_append (a b : List RegistryOp) :
    regConns (a ++ b) = regConns a ++ regConns b := by
  induction a with
  | nil => rfl
  | cons op rest ih =>
    cases op with
    | reg c u => simp [regConns, ih]
    | unreg c => simp [regConns, ih]

theorem mem_regConns_of_reg (ops : List RegistryOp) (c : Conn) (u : UserId) :
    RegistryOp.reg c u ∈ ops → c ∈ regConns ops := by
  induction ops with
  | nil => intro h; simp at h
  | cons op rest ih =>
    intro h
    rcases List.mem_cons.mp h with h1 | h1
    · rw [← h1]; simp [regConns]
    · cases op with
      | reg c' u' =>
        simp only [regConns, List.mem_cons]
        exact Or.inr (ih h1)
      | unreg c' =>
        simp only [regConns]
        exact ih h1

theorem live_mem_regConns (ops : List RegistryOp) (c : Conn) (u : UserId)
    (h : RegisteredLive ops c u) : c ∈ regConns ops := by
  obtain ⟨pre, suf, heq, _⟩ := h
  rw [heq, regConns_append]
  simp [regConns]

theorem inv_empty : Inv emptyManager := by
  refine ⟨?_, ?_, ?_⟩
  · intro w u h; simp [emptyManager] at h
  · intro u w h; simp [emptyManager] at h
  · intro u; simp [emptyManager]

theorem connect_inv (s : ConnectionManager) (c : Conn) (u : UserId)
    (h : Inv s) (hfresh : s.connection_users c = none) :
    Inv (connect s c u) := by
  obtain ⟨h1, h2, h3⟩ := h
  have hcnot : c ∉ (s.user_connections u).getD [] := by
    intro hc
    rw [h2 u c hc] at hfresh
    exact Option.noConfusion hfresh
  refine ⟨?_, ?_, ?_⟩
  · intro w v hw
    simp only [connect, update_apply] at hw ⊢
    by_cases hwc : w = c
    · subst hwc
      rw [if_pos rfl] at hw
      injection hw with hw
      subst hw
      simp
    · rw [if_neg hwc] at hw
      by_cases hv : v = u
      · rw [if_pos hv]
        rw [hv] at hw
        simp only [Option.getD_some, List.mem_append]
        exact Or.inl (h1 w u hw)
      · rw [if_neg hv]
        exact h1 w v hw
  · intro v w hw
    simp only [connect, update_apply] at hw ⊢
    by_cases hv : v = u
    · rw [if_pos hv] at hw
      simp only [Option.getD_some, List.mem_append, List.mem_singleton] at hw
      rcases hw with hw | hw
      · have hh := h2 u w hw
        have hwc : w ≠ c := by
          intro hc; subst hc; rw [hh] at hfresh; exact Option.noConfusion hfresh
        rw [if_neg hwc, hv]
        exact hh
      · subst hw
        rw [if_pos rfl, hv]
    · rw [if_neg hv] at hw
      have hh := h2 v w hw
      have hwc : w ≠ c := by
        intro hc; subst hc; rw [hh] at hfresh; exact Option.noConfusion hfresh
      rw [if_neg hwc]
      exact hh
  · intro v
    simp only [connect, update_apply]
    by_cases hv : v = u
    · rw [if_pos hv]
      simp only [Option.getD_some]
      rw [List.nodup_append]
      exact ⟨h3 u, List.nodup_singleton c,
        fun a ha hb => by rw [List.mem_singleton] at hb; subst hb; exact hcnot ha⟩
    · rw [if_neg hv]
      exact h3 v

theorem disconnect_ok (s : ConnectionManager) (w : Conn) (h : Inv s) :
    ∃ s', disconnect s w = .ok s' ∧ Inv s' ∧
      s'.connection_users = update s.connection_users w none := by
  obtain ⟨h1, h2, h3⟩ := h
  cases hcu : s.connection_users w with
  | none =>
    refine ⟨s, ?_, ⟨h1, h2, h3⟩, ?_⟩
    · unfold disconnect; rw [hcu]
    · funext x
      rw [update_apply]
      by_cases hx : x = w
      · subst hx; rw [if_pos rfl, hcu]
      · rw [if_neg hx]
  | some u =>
    have hwin : w ∈ (s.user_connections u).getD [] := h1 w u hcu
    cases huc : s.user_connections u with
    | none => rw [huc] at hwin; simp at hwin
    | some conns =>
      rw [huc] at hwin
      simp only [Option.getD_some] at hwin
      have hnd : conns.Nodup := by
        have := h3 u; rw [huc] at this; simpa using this
      refine ⟨{ user_connections :=
                  if conns.erase w = [] then update s.user_connections u none
                  else update s.user_connections u (some (conns.erase w))
                channel_subscriptions :=
                  fun c => (s.channel_subscriptions c).map (pySetDiscard u)
                connection_users := update s.connection_users w none },
              ?_, ?_, rfl⟩
      · simp only [disconnect, hcu, huc]
        simp [hwin]
      · have huc' : ∀ v, (((if conns.erase w = [] then
            update s.user_connections u none
            else update s.user_connections u (some (conns.erase w))) v).getD []) =
            if v = u then conns.erase w else (s.user_connections v).getD [] := by
          intro v
          by_cases hv : v = u
          · subst hv
            by_cases hnil : conns.erase w = [] <;> simp [hnil, update]
          · by_cases hnil : conns.erase w = [] <;> simp [hnil, update, hv]
        refine ⟨?_, ?_, ?_⟩
        · intro w' v hw'
          simp only [update_apply] at hw'
          by_cases hww : w' = w
          · rw [if_pos hww] at hw'; exact Option.noConfusion hw'
          · rw [if_neg hww] at hw'
            rw [huc' v]
            by_cases hv : v = u
            · rw [if_pos hv]
              rw [hv] at hw'
              have hh := h1 w' u hw'
              rw [huc] at hh; simp only [Option.getD_some] at hh
              exact (List.mem_erase_of_ne hww).mpr hh
            · rw [if_neg hv]
              exact h1 w' v hw'
        · intro v w' hw'
          rw [huc' v] at hw'
          simp only [update_apply]
          by_cases hv : v = u
          · rw [if_pos hv] at hw'
            have hin : w' ∈ conns := List.mem_of_mem_erase hw'
            have hww : w' ≠ w := by
              intro hc; subst hc
              exact (List.Nodup.not_mem_erase hnd) hw'
            rw [if_neg hww, hv]
            have hh := h2 u w'
            rw [huc] at hh
            exact hh (by simpa using hin)
          · rw [if_neg hv] at hw'
            have hh := h2 v w' hw'
            have hww : w' ≠ w := by
              intro hc; subst hc
              rw [hh] at hcu
              injection hcu with hcu
              exact hv hcu
            rw [if_neg hww]
            exact hh
        · intro v
          rw [huc' v]
          by_cases hv : v = u
          · rw [if_pos hv]
            exact hnd.erase w
          · rw [if_neg hv]
            exact h3 v

theorem ownerAfter_concat (f : Conn → Option UserId) (ops : List RegistryOp)
    (op : RegistryOp) :
    ownerAfter f (ops ++ [op]) = opStep (ownerAfter f ops) op := by
  unfold ownerAfter
  rw [List.foldl_append]
  rfl

theorem runOps_sim (ops : List RegistryOp) :
    ∀ s : ConnectionManager, Inv s →
      (∀ c u, RegistryOp.reg c u ∈ ops → s.connection_users c = none) →
      wfOps ops →
      ∃ s', runOps s ops = .ok s' ∧ Inv s' ∧
        s'.connection_users = ownerAfter s.connection_users ops := by
  induction ops with
  | nil => intro s h _ _; exact ⟨s, rfl, h, rfl⟩
  | cons op rest ih =>
    intro s hInv hfresh hwf
    cases op with
    | reg c u =>
      have hfc : s.connection_users c = none :=
        hfresh c u (List.mem_cons_self _ _)
      have hInv1 : Inv (connect s c u) := connect_inv s c u hInv hfc
      have hnotin : c ∉ regConns rest := by
        unfold wfOps at hwf
        simp only [regConns] at hwf
        exact (List.nodup_cons.mp hwf).1
      have hfresh1 : ∀ c' u', RegistryOp.reg c' u' ∈ rest →
          (connect s c u).connection_users c' = none := by
        intro c' u' hm
        have hne : c' ≠ c := by
          intro hcc; subst hcc
          exact hnotin (mem_regConns_of_reg rest c' u' hm)
        show update s.connection_users c (some u) c' = none
        rw [update_apply, if_neg hne]
        exact hfresh c' u' (List.mem_cons_of_mem _ hm)
      have hwf1 : wfOps rest := by
        unfold wfOps at hwf ⊢
        simp only [regConns] at hwf
        exact (List.nodup_cons.mp hwf).2
      obtain ⟨s', hrun, hInv', hcu'⟩ := ih (connect s c u) hInv1 hfresh1 hwf1
      refine ⟨s', ?_, hInv', ?_⟩
      · simp only [runOps, applyOp]
        exact hrun
      · rw [hcu']
        rfl
    | unreg c =>
      obtain ⟨s1, hd, hInv1, hcu1⟩ := disconnect_ok s c hInv
      have hfresh1 : ∀ c' u', RegistryOp.reg c' u' ∈ rest →
          s1.connection_users c' = none := by
        intro c' u' hm
        rw [hcu1, update_apply]
        by_cases hcc : c' = c
        · rw [if_pos hcc]
        · rw [if_neg hcc]
          exact hfresh c' u' (List.mem_cons_of_mem _ hm)
      have hwf1 : wfOps rest := by
        unfold wfOps at hwf ⊢
        simpa [regConns] using hwf
      obtain ⟨s', hrun, hInv', hcu'⟩ := ih s1 hInv1 hfresh1 hwf1
      refine ⟨s', ?_, hInv', ?_⟩
      · simp only [runOps, applyOp, hd]
        exact hrun
      · rw [hcu', hcu1]
        rfl

theorem live_concat (ops : List RegistryOp) (op : RegistryOp) (c : Conn)
    (u : UserId) :
    RegisteredLive (ops ++ [op]) c u ↔
      (op = RegistryOp.reg c u ∨
        (RegisteredLive ops c u ∧ op ≠ RegistryOp.unreg c)) := by
  constructor
  · rintro ⟨pre, suf, heq, hnu⟩
    rcases List.eq_nil_or_concat suf with hs | ⟨suf₀, z, hs⟩
    · subst hs
      obtain ⟨h1, h2⟩ := List.append_inj' heq rfl
      left
      simpa using h2
    · subst hs
      have heq' : ops ++ [op] =
          (pre ++ RegistryOp.reg c u :: suf₀) ++ [z] := by
        rw [heq]
        simp [List.concat_eq_append]
      obtain ⟨h1, h2⟩ := List.append_inj' heq' rfl
      injection h2 with h2
      subst h2
      rw [List.concat_eq_append] at hnu
      right
      refine ⟨⟨pre, suf₀, h1, fun hm => hnu (List.mem_append.mpr (Or.inl hm))⟩, ?_⟩
      intro hopc
      exact hnu (List.mem_append.mpr (Or.inr (by rw [hopc]; simp)))
  · rintro (hop | ⟨⟨pre, suf, heq, hnu⟩, hne⟩)
    · exact ⟨ops, [], by rw [hop], by simp⟩
    · refine ⟨pre, suf ++ [op], by rw [heq]; simp, ?_⟩
      intro hm
      rcases List.mem_append.mp hm with hm | hm
      · exact hnu hm
      · rw [List.mem_singleton] at hm
        exact hne hm.symm

theorem ownerAfter_live (ops : List RegistryOp) (hwf : wfOps ops) (c : Conn)
    (u : UserId) :
    ownerAfter (fun _ => none) ops c = some u ↔ RegisteredLive ops c u := by
  induction ops using List.reverseRecOn with
  | nil =>
    constructor
    · intro h; exact absurd h (by simp [ownerAfter])
    · rintro ⟨pre, suf, heq, _⟩
      exact absurd heq (by simp)
  | append_singleton ops op ih =>
    have hwf0 : wfOps ops := by
      unfold wfOps at hwf ⊢
      rw [regConns_append] at hwf
      exact (List.nodup_append.mp hwf).1
    rw [ownerAfter_concat, live_concat]
    cases op with
    | reg c' u' =>
      simp only [opStep, update_apply]
      by_cases hcc : c = c'
      · subst hcc
        rw [if_pos rfl]
        constructor
        · intro h
          injection h with h
          left
          rw [h]
        · rintro (h | ⟨hlive, _⟩)
          · injection h with h1 h2
            rw [h2]
          · exfalso
            have hc : c ∈ regConns ops := live_mem_regConns ops c u hlive
            unfold wfOps at hwf
            rw [regConns_append] at hwf
            have hdisj := (List.nodup_append.mp hwf).2.2
            exact hdisj hc (by simp [regConns])
      · rw [if_neg hcc, ih hwf0]
        constructor
        · intro h
          right
          exact ⟨h, by simp⟩
        · rintro (h | ⟨hlive, _⟩)
          · exfalso
            injection h with h1 h2
            exact hcc h1.symm
          · exact hlive
    | unreg c' =>
      simp only [opStep, update_apply]
      by_cases hcc : c = c'
      · subst hcc
        rw [if_pos rfl]
        constructor
        · intro h
          exact absurd h (by simp)
        · rintro (h | ⟨_, hne⟩)
          · exact absurd h (by simp)
          · exact absurd rfl hne
      · rw [if_neg hcc, ih hwf0]
        constructor
        · intro h
          right
          refine ⟨h, ?_⟩
          intro heq
          injection heq with h1
          exact hcc h1.symm
        · rintro (h | ⟨hlive, _⟩)
          · exact absurd h (by simp)
          · exact hlive

/-- C4: running any well-formed `register`/`unregister` history (each
connection registered at most once) from the empty registry raises nothing,
and for every user `u`, `connectionsFor(u)` holds exactly — without
duplicates — the connections registered under `u` and not subsequently
unregistered, and `connectionCount(u)` equals the size of that set. -/
theorem registry_history_exact (ops : List RegistryOp) (hwf : wfOps ops) :
    ∃ s, runOps emptyManager ops = .ok s ∧
      ∀ u : UserId,
        (connectionsFor s u).Nodup ∧
        (∀ c : Conn, c ∈ connectionsFor s u ↔ RegisteredLive ops c u) ∧
        get_user_connection_count s u =
          {c : Conn | RegisteredLive ops c u}.ncard := by
  obtain ⟨s, hrun, hInv, hcu⟩ :=
    runOps_sim ops emptyManager inv_empty (fun _ _ _ => rfl) hwf
  refine ⟨s, hrun, ?_⟩
  intro u
  have hmem : ∀ c : Conn, c ∈ connectionsFor s u ↔ RegisteredLive ops c u := by
    intro c
    have hc1 : c ∈ connectionsFor s u ↔ s.connection_users c = some u :=
      ⟨fun h => hInv.2.1 u c h, fun h => hInv.1 c u h⟩
    rw [hc1, hcu]
    exact ownerAfter_live ops hwf c u
  have hnd : (connectionsFor s u).Nodup := hInv.2.2 u
  refine ⟨hnd, hmem, ?_⟩
  have hset : {c : Conn | RegisteredLive ops c u} =
      ↑(connectionsFor s u).toFinset := by
    ext c
    simp only [Set.mem_setOf_eq, Finset.coe_sort_coe, List.coe_toFinset,
      Set.mem_setOf_eq]
    exact (hmem c).symm
  rw [hset, Set.ncard_coe_Finset, List.toFinset_card_of_nodup hnd]
  rfl

theorem registry_history_exact_witness :
    wfOps [RegistryOp.reg 1 10, RegistryOp.reg 2 10, RegistryOp.unreg 1] ∧
    (∃ s, runOps emptyManager
        [RegistryOp.reg 1 10, RegistryOp.reg 2 10, RegistryOp.unreg 1] =
        .ok s ∧
      ∀ u : UserId,
        (connectionsFor s u).Nodup ∧
        (∀ c : Conn, c ∈ connectionsFor s u ↔
          RegisteredLive
            [RegistryOp.reg 1 10, RegistryOp.reg 2 10, RegistryOp.unreg 1] c u) ∧
        get_user_connection_count s u =
          {c : Conn | RegisteredLive
            [RegistryOp.reg 1 10, RegistryOp.reg 2 10, RegistryOp.unreg 1]
            c u}.ncard) :=
  ⟨by decide,
    registry_history_exact
      [RegistryOp.reg 1 10, RegistryOp.reg 2 10, RegistryOp.unreg 1]
      (by decide)⟩

end ChatWS
